import Mathlib

/-!
Verification of the resilience layer of the `dymo-api-python` SDK
(`src/dymoapi/resilience/__init__.py`) and of the argument check of
`get_prayer_times` (`src/dymoapi/branches/public.py`), as a shallow
embedding in Lean 4.

Modelling conventions:
* Python dicts become association lists with first-match lookup
  (`RLState` for `RateLimitTracker.client_limits`, `Headers` for
  the header mapping of a response).
* Python `int(s)` becomes `pyInt : String → Option Int`; `none` models a
  raised `ValueError` (sign and decimal digits after stripping
  whitespace; the rarely used underscore grouping of Python literals is
  not modelled, no claim depends on it).
* In-place mutation becomes explicit state passing.  A call that raises
  an uncaught `ValueError` partway through `update_rate_limit` returns
  the mutations performed so far together with an `ok = false` flag.
* `time.time()` / `time.sleep` become an explicit `now` parameter and
  `Event.sleepMs` entries of an event trace; each issued HTTP request is
  an `Event.request` entry.
-/

namespace DymoApi

/-- The rate-limit record of one client: the inner dict stored in
`RateLimitTracker.client_limits`.  Every field is optional because the
Python dict starts empty and gains keys one header at a time. -/
structure LimitInfo where
  limit : Option Int := none
  remaining : Option Int := none
  reset_time : Option String := none
  retry_after : Option Int := none
  last_updated : Option Nat := none
deriving DecidableEq, Repr

/-- `client_limits : client_id -> rate_limit_info`, as an association
list with first-match lookup. -/
def RLState := List (String × LimitInfo)

instance : DecidableEq RLState := by
  unfold RLState
  infer_instance

instance : Repr RLState := by
  unfold RLState
  infer_instance

/-- A response header mapping, as an association list with first-match
lookup. -/
def Headers := List (String × String)

instance : DecidableEq Headers := by
  unfold Headers
  infer_instance

instance : Repr Headers := by
  unfold Headers
  infer_instance

/-- Dict lookup: first binding of the key, if any. -/
def lookupClient : RLState → String → Option LimitInfo
  | [], _ => none
  | (c', i) :: rest, c => if c' = c then some i else lookupClient rest c

/-- Dict assignment: replace the first binding of the key, or append a
new binding (Python dicts keep insertion order). -/
def setClient : RLState → String → LimitInfo → RLState
  | [], c, i => [(c, i)]
  | (c', i') :: rest, c, i =>
      if c' = c then (c', i) :: rest else (c', i') :: setClient rest c i

/-- Header lookup (`headers[k]` / `k in headers`). -/
def hfind (h : Headers) (k : String) : Option String :=
  (h.find? (fun p => p.1 = k)).map (fun p => p.2)

/-- Decimal digit string to value; `none` when empty or a non-digit is
present. -/
def decDigits? (cs : List Char) : Option Nat :=
  if cs = [] then none
  else if cs.all Char.isDigit then
    some (cs.foldl (fun a c => a * 10 + (c.toNat - 48)) 0)
  else none

/-- Strip leading and trailing whitespace from a character list. -/
def stripSpaces (cs : List Char) : List Char :=
  ((cs.dropWhile Char.isWhitespace).reverse.dropWhile Char.isWhitespace).reverse

/-- Model of Python `int(s)`: optional surrounding whitespace, optional
sign, decimal digits.  `none` models the `ValueError` raise. -/
def pyInt (s : String) : Option Int :=
  match stripSpaces s.toList with
  | '-' :: rest => (decDigits? rest).map (fun n => -(n : Int))
  | '+' :: rest => (decDigits? rest).map (fun n => (n : Int))
  | cs => (decDigits? cs).map (fun n => (n : Int))

/-- Step for the retry-after header of `update_rate_limit`, then the
`last_updated` stamp. -/
def updateRetryAfter (st : RLState) (clientId : String) (headers : Headers)
    (now : Nat) (info : LimitInfo) : RLState × Bool :=
  match hfind headers "retry-after" with
  | some s =>
      match pyInt s with
      | none => (setClient st clientId info, false)
      | some v =>
          (setClient st clientId
            { info with retry_after := some v, last_updated := some now }, true)
  | none => (setClient st clientId { info with last_updated := some now }, true)

/-- Step for the reset-time header of `update_rate_limit` (stored
verbatim, no parse). -/
def updateReset (st : RLState) (clientId : String) (headers : Headers)
    (now : Nat) (info : LimitInfo) : RLState × Bool :=
  match hfind headers "X-Ratelimit-Reset-Requests" with
  | some s => updateRetryAfter st clientId headers now { info with reset_time := some s }
  | none => updateRetryAfter st clientId headers now info

/-- Step for the remaining-requests header of `update_rate_limit`. -/
def updateRemaining (st : RLState) (clientId : String) (headers : Headers)
    (now : Nat) (info : LimitInfo) : RLState × Bool :=
  match hfind headers "X-Ratelimit-Remaining-Requests" with
  | some s =>
      match pyInt s with
      | none => (setClient st clientId info, false)
      | some v => updateReset st clientId headers now { info with remaining := some v }
  | none => updateReset st clientId headers now info

/-- `RateLimitTracker.update_rate_limit(client_id, headers)` at time
`now`.  Returns the new state and an `ok` flag; `ok = false` models the
uncaught `ValueError` raised by `int(...)` on a malformed numeric
header, in which case the state keeps exactly the mutations performed
before the raise (the entry is created first, headers are processed in
source order, `last_updated` is stamped only at the end). -/
def update_rate_limit (st : RLState) (clientId : String) (headers : Headers)
    (now : Nat) : RLState × Bool :=
  let info0 := (lookupClient st clientId).getD {}
  match hfind headers "X-Ratelimit-Limit-Requests" with
  | some s =>
      match pyInt s with
      | none => (setClient st clientId info0, false)
      | some v => updateRemaining st clientId headers now { info0 with limit := some v }
  | none => updateRemaining st clientId headers now info0

/-- `RateLimitTracker.is_rate_limited`: false for an unknown client,
otherwise `limit_info.get(remaining, 1) <= 0` on the stored record. -/
def is_rate_limited (st : RLState) (clientId : String) : Bool :=
  match lookupClient st clientId with
  | none => false
  | some info => (info.remaining.getD 1) ≤ 0

/-- `RateLimitTracker.get_retry_after`: the tracked `retry_after`, or
`none` for an unknown client. -/
def get_retry_after (st : RLState) (clientId : String) : Option Int :=
  match lookupClient st clientId with
  | none => none
  | some info => info.retry_after

/-- All present numeric headers of the mapping parse as integers, i.e.
`update_rate_limit` completes without raising. -/
def headersOk (h : Headers) : Bool :=
  (match hfind h "X-Ratelimit-Limit-Requests" with
   | some s => (pyInt s).isSome
   | none => true) &&
  (match hfind h "X-Ratelimit-Remaining-Requests" with
   | some s => (pyInt s).isSome
   | none => true) &&
  (match hfind h "retry-after" with
   | some s => (pyInt s).isSome
   | none => true)

/-- `ResilienceConfig` after construction: `retry_attempts` and
`retry_delay` are clamped non-negative by `max(0, ...)`, so they are
naturals here; `retry_delay` is in milliseconds. -/
structure ResilienceConfig where
  fallback_enabled : Bool
  retry_attempts : Nat
  retry_delay : Nat
deriving DecidableEq, Repr

/-- The `ResilienceConfig` constructor: clamps possibly negative
arguments with `max(0, ...)`. -/
def mkResilienceConfig (fallbackEnabled : Bool) (retryAttempts retryDelay : Int) :
    ResilienceConfig :=
  ⟨fallbackEnabled, retryAttempts.toNat, retryDelay.toNat⟩

/-- An HTTP response as the executor sees it: status code, header
mapping, and an already parsed JSON body of type `β` (`response.json()`
is modelled as always succeeding). -/
structure PyResponse (β : Type) where
  status : Nat
  headers : Headers
  body : β
deriving DecidableEq, Repr

/-- A `RequestException` value: its `response` attribute (absent
response modelled as `none`) and whether the object has a `timeout`
attribute (probed by `hasattr(error, timeout)` in `_should_retry`).
`msg` is the exception message. -/
structure PyError (β : Type) where
  response : Option (PyResponse β)
  timeoutAttr : Bool
  msg : String
deriving DecidableEq, Repr

/-- What `session.request` does on one attempt: either a response comes
back, or the transport raises a `RequestException`. -/
inductive AttemptOutcome (β : Type) where
  | resp (r : PyResponse β)
  | exn (e : PyError β)
deriving DecidableEq, Repr

/-- Observable events of one executor run: each issued request (with its
1-based attempt number) and each blocking sleep, in milliseconds
(`time.sleep(retry_after)` is seconds, recorded as `retry_after * 1000`;
the backoff `time.sleep(delay / 1000)` is recorded as `delay`). -/
inductive Event where
  | request (attempt : Nat)
  | sleepMs (ms : Int)
deriving DecidableEq, Repr

/-- How a call to `execute_with_resilience` ends. -/
inductive ExecOutcome (β : Type) where
  /-- returned `response.json()` -/
  | success (v : β)
  /-- returned `fallback_data` -/
  | fallback (v : β)
  /-- raised a `RequestException` -/
  | raised (e : PyError β)
  /-- an uncaught `ValueError` escaped from `int(...)` inside
  `update_rate_limit` (not a `RequestException`, so not caught) -/
  | valueError
  /-- the dead `raise last_error` after the loop (unreachable, since
  `total_attempts >= 1` and the last attempt always returns or raises) -/
  | noLast
deriving DecidableEq, Repr

/-- Result of a run: the event trace, the final tracker state, and the
outcome. -/
structure ExecResult (β : Type) where
  events : List Event
  tracker : RLState
  outcome : ExecOutcome β
deriving DecidableEq, Repr

/-- Python truthiness of a `requests.Response`: `bool(response)` is
`response.ok`, i.e. `raise_for_status()` would not raise, i.e. the
status is outside `[400, 600)`. -/
def respOk (r : PyResponse β) : Bool :=
  !(decide (400 ≤ r.status) && decide (r.status < 600))

/-- `ResilienceManager._should_retry`, clause by clause: response-less
errors without a `timeout` attribute are retryable; 5xx responses are
retryable; everything else (429, other statuses, response-less errors
with a `timeout` attribute) is not. -/
def should_retry (e : PyError β) : Bool :=
  if e.response.isNone && !e.timeoutAttr then true
  else
    match e.response with
    | some r => decide (500 ≤ r.status) && decide (r.status < 600)
    | none => false

/-- The in-loop guard `hasattr(e, response) and e.response and
e.response.status_code == 429`: note `e.response` is evaluated for
truthiness, and a `Response` is truthy iff `ok` — so a response with an
error status (429 included) is falsy and the guard cannot fire. -/
def guard429 (e : PyError β) : Bool :=
  match e.response with
  | some r => respOk r && decide (r.status = 429)
  | none => false

/-- What one iteration of the `try` block produces before the
retry/fallback decision. -/
inductive PyAttemptRes (β : Type) where
  /-- `return response.json()` -/
  | ok (v : β)
  /-- a `RequestException` was caught -/
  | failed (e : PyError β)
  /-- `ValueError` from `update_rate_limit` (escapes uncaught) -/
  | valErr
deriving DecidableEq, Repr

/-- The body of the `try` block for one attempt: update the tracker from
the response headers, handle 429 (sleep `retry_after` seconds if truthy,
then raise a response-less `RequestException`), run
`raise_for_status()`, or return the body.  Produces the new tracker
state, the sleep events of this attempt, and the result. -/
def attemptStep (clientId : String) (o : AttemptOutcome β) (st : RLState)
    (now : Nat) : RLState × List Event × PyAttemptRes β :=
  match o with
  | .exn e => (st, [], .failed e)
  | .resp r =>
      if (update_rate_limit st clientId r.headers now).2 = false then
        ((update_rate_limit st clientId r.headers now).1, [], .valErr)
      else if r.status = 429 then
        ((update_rate_limit st clientId r.headers now).1,
          (match get_retry_after (update_rate_limit st clientId r.headers now).1
              clientId with
            | some n => if n ≠ 0 then [Event.sleepMs (n * 1000)] else []
            | none => []),
          .failed ⟨none, false, "Rate limited (429) - not retrying"⟩)
      else if 400 ≤ r.status ∧ r.status < 600 then
        ((update_rate_limit st clientId r.headers now).1, [],
          .failed ⟨some r, false, "HTTPError"⟩)
      else ((update_rate_limit st clientId r.headers now).1, [], .ok r.body)

/-- The `for attempt in range(1, total_attempts + 1)` loop.  `remaining`
is the number of attempts still allowed (`remaining = 1` means `attempt
== total_attempts`); `outcomes i` is what the transport does on the
i-th attempt.  `remaining = 0` is the dead `raise last_error` after the
loop. -/
def executeLoop (cfg : ResilienceConfig) (clientId : String)
    (outcomes : Nat → AttemptOutcome β) (fallback : Option β) (now : Nat)
    (st : RLState) (attempt : Nat) : Nat → ExecResult β
  | 0 => ⟨[], st, .noLast⟩
  | r + 1 =>
      match attemptStep clientId (outcomes attempt) st now with
      | (st1, evs, .ok v) => ⟨.request attempt :: evs, st1, .success v⟩
      | (st1, evs, .valErr) => ⟨.request attempt :: evs, st1, .valueError⟩
      | (st1, evs, .failed e) =>
          let sr := if guard429 e then false else should_retry e
          let isLast := r = 0
          if sr = false ∨ isLast then
            match fallback with
            | some fb =>
                if cfg.fallback_enabled then
                  ⟨.request attempt :: evs, st1, .fallback fb⟩
                else ⟨.request attempt :: evs, st1, .raised e⟩
            | none => ⟨.request attempt :: evs, st1, .raised e⟩
          else
            let delay : Nat := cfg.retry_delay * 2 ^ (attempt - 1)
            let rest := executeLoop cfg clientId outcomes fallback now st1 (attempt + 1) r
            ⟨.request attempt :: evs ++ Event.sleepMs delay :: rest.events,
              rest.tracker, rest.outcome⟩

/-- The pre-loop rate-limit wait of `execute_with_resilience`: sleep
`retry_after` seconds when the client is already rate limited and
`retry_after` is truthy. -/
def preSleep (st : RLState) (clientId : String) : List Event :=
  if is_rate_limited st clientId then
    match get_retry_after st clientId with
    | some n => if n ≠ 0 then [Event.sleepMs (n * 1000)] else []
    | none => []
  else []

/-- `ResilienceManager.execute_with_resilience`: the pre-loop
rate-limit wait (`preSleep`), then the attempt loop with
`total_attempts = 1 + retry_attempts`. -/
def execute_with_resilience (cfg : ResilienceConfig) (clientId : String)
    (outcomes : Nat → AttemptOutcome β) (fallback : Option β) (now : Nat)
    (st : RLState) : ExecResult β :=
  let res := executeLoop cfg clientId outcomes fallback now st 1 (cfg.retry_attempts + 1)
  ⟨preSleep st clientId ++ res.events, res.tracker, res.outcome⟩

/-- Number of HTTP requests recorded in a trace. -/
def countRequests (evs : List Event) : Nat :=
  (evs.filter (fun e => match e with | .request _ => true | _ => false)).length

/-- Helper for `waitBeforeReq`: `prev` is the duration of the
immediately preceding sleep event, if the previous event was a sleep. -/
def waitB (prev : Option Int) : List Event → Nat → Option Int
  | [], _ => none
  | .request n :: rest, k => if n = k then prev else waitB none rest k
  | .sleepMs d :: rest, k => waitB (some d) rest k

/-- The duration of the sleep event immediately preceding the request
with attempt number `k`, if any. -/
def waitBeforeReq (evs : List Event) (k : Nat) : Option Int :=
  waitB none evs k

/-- An attempt outcome on which the executor takes the
backoff-and-retry branch (provided the attempt is not the last): a
transport error classified retryable, or a 5xx response whose headers
parse. -/
def isRetryFailure : AttemptOutcome β → Bool
  | .exn e => should_retry e && !(guard429 e)
  | .resp r => headersOk r.headers && decide (500 ≤ r.status) && decide (r.status < 600)

/-- An attempt outcome that is a 5xx response whose headers parse; on
such an outcome the executor raises an `HTTPError` carrying the
response and classifies it retryable. -/
def is5xxOk : AttemptOutcome β → Bool
  | .resp r => headersOk r.headers && decide (500 ≤ r.status) && decide (r.status < 600)
  | .exn _ => false

/-- The record stored for a client after a completed
`update_rate_limit` call: each present header overwrites its field,
absent headers keep the old value, `last_updated` is stamped. -/
def appliedInfo (old : LimitInfo) (h : Headers) (now : Nat) : LimitInfo where
  limit :=
    match hfind h "X-Ratelimit-Limit-Requests" with
    | some s => pyInt s
    | none => old.limit
  remaining :=
    match hfind h "X-Ratelimit-Remaining-Requests" with
    | some s => pyInt s
    | none => old.remaining
  reset_time :=
    match hfind h "X-Ratelimit-Reset-Requests" with
    | some s => some s
    | none => old.reset_time
  retry_after :=
    match hfind h "retry-after" with
    | some s => pyInt s
    | none => old.retry_after
  last_updated := some now

/-- One public operation on the shared `RateLimitTracker`. -/
inductive TrackerOp where
  | update (clientId : String) (headers : Headers) (now : Nat)
  | isRateLimited (clientId : String)
  | getRetryAfter (clientId : String)
deriving DecidableEq, Repr

/-- State transition of one tracker operation: `update_rate_limit` is
the only method containing an assignment; `is_rate_limited` and
`get_retry_after` only read. -/
def applyOp (st : RLState) : TrackerOp → RLState
  | .update clientId headers now => (update_rate_limit st clientId headers now).1
  | .isRateLimited _ => st
  | .getRetryAfter _ => st

/-- Run a sequence of tracker operations. -/
def runOps (st : RLState) (ops : List TrackerOp) : RLState :=
  ops.foldl applyOp st

/-- Python truthiness of an optional coordinate (`data.lat` /
`data.lon`): `None` is falsy and a numeric value is falsy exactly when
it is zero (`0` and `0.0` both).  Coordinates are modelled as rationals;
this captures every finite float exactly. -/
def pyFalsy : Option ℚ → Bool
  | none => true
  | some x => decide (x = 0)

/-- What `get_prayer_times` does: raise `BadRequestError` without any
network traffic, or issue the single HTTP GET with the given
coordinates as query parameters. -/
inductive PrayerCall where
  | badRequest
  | httpGet (lat lon : ℚ)
deriving DecidableEq, Repr

/-- `get_prayer_times` (src/dymoapi/branches/public.py): the falsy
check `if not data.lat or not data.lon` raises `BadRequestError` before
the `requests.get` call; otherwise the request is issued with
`data.get(lat)` / `data.get(lon)`. -/
def get_prayer_times (lat lon : Option ℚ) : PrayerCall :=
  if pyFalsy lat || pyFalsy lon then .badRequest
  else .httpGet (lat.getD 0) (lon.getD 0)

/-! ## Lemmas about the tracker map -/

theorem lookup_set_self (st : RLState) (c : String) (i : LimitInfo) :
    lookupClient (setClient st c i) c = some i := by
  induction st with
  | nil => simp [setClient, lookupClient]
  | cons p rest ih =>
      obtain ⟨c', i'⟩ := p
      by_cases hc : c' = c
      · simp [setClient, lookupClient, hc]
      · simp [setClient, lookupClient, hc, ih]

theorem lookup_set_other (st : RLState) (c c' : String) (i : LimitInfo)
    (hne : c ≠ c') : lookupClient (setClient st c i) c' = lookupClient st c' := by
  induction st with
  | nil => simp [setClient, lookupClient, hne]
  | cons p rest ih =>
      obtain ⟨c'', i''⟩ := p
      by_cases hc : c'' = c
      · subst hc
        simp [setClient, lookupClient, hne]
      · by_cases hc' : c'' = c'
        · simp [setClient, lookupClient, hc, hc', Ne.symm hne]
        · simp [setClient, lookupClient, hc, hc', ih]

theorem isSome_lookup_set (st : RLState) (c c'' : String) (i : LimitInfo)
    (hs : (lookupClient st c).isSome = true) :
    (lookupClient (setClient st c'' i) c).isSome = true := by
  by_cases h : c'' = c
  · subst h
    rw [lookup_set_self]
    rfl
  · rw [lookup_set_other _ _ _ _ h]
    exact hs

/-- Whatever happens inside `update_rate_limit` (including the
`ValueError` path), the resulting state is a single assignment to the
given client. -/
theorem update_shape (st : RLState) (c : String) (h : Headers) (now : Nat) :
    ∃ i, (update_rate_limit st c h now).1 = setClient st c i := by
  unfold update_rate_limit updateRemaining updateReset updateRetryAfter
  repeat' split
  all_goals exact ⟨_, rfl⟩

/-- When every present numeric header parses, `update_rate_limit`
completes: it stores `appliedInfo` for the client and reports success. -/
theorem update_ok_eq (st : RLState) (c : String) (h : Headers) (now : Nat)
    (hok : headersOk h = true) :
    update_rate_limit st c h now =
      (setClient st c (appliedInfo ((lookupClient st c).getD {}) h now), true) := by
  unfold headersOk at hok
  unfold update_rate_limit updateRemaining updateReset updateRetryAfter appliedInfo
  repeat' split
  all_goals simp_all

theorem update_ok_lookup (st : RLState) (c : String) (h : Headers) (now : Nat)
    (hok : headersOk h = true) :
    lookupClient (update_rate_limit st c h now).1 c
      = some (appliedInfo ((lookupClient st c).getD {}) h now) := by
  rw [update_ok_eq st c h now hok]
  exact lookup_set_self st c _

/-! ## Claim theorems -/

/-- C10: any falsy latitude or longitude (absent, zero integer, zero
float) makes `get_prayer_times` raise `BadRequestError` before any HTTP
request is issued, so valid equator / prime-meridian coordinates are
rejected as if missing. -/
theorem c10_falsy_coordinates_rejected :
    ∀ (lat lon : Option ℚ),
      lat = none ∨ lat = some 0 ∨ lon = none ∨ lon = some 0 →
      get_prayer_times lat lon = .badRequest := by
  intro lat lon hcase
  rcases hcase with h | h | h | h <;> subst h <;>
    simp [get_prayer_times, pyFalsy]

/-- Witness for C10 at the prime-meridian-like input latitude 0,
longitude 50. -/
theorem c10_witness : get_prayer_times (some 0) (some 50) = .badRequest :=
  c10_falsy_coordinates_rejected (some 0) (some 50) (Or.inr (Or.inl rfl))

/-- C6: `is_rate_limited` is true iff a tracked `remaining` exists for
the client and is at most 0; a client never seen gives false; it is
true immediately after an update whose headers report remaining = 0. -/
theorem c6_is_rate_limited_iff :
    ∀ (st : RLState) (c : String),
      (is_rate_limited st c = true ↔
        ∃ i, lookupClient st c = some i ∧ ∃ n, i.remaining = some n ∧ n ≤ 0) ∧
      (lookupClient st c = none → is_rate_limited st c = false) ∧
      (∀ (h : Headers) (now : Nat) (s : String),
        headersOk h = true →
        hfind h "X-Ratelimit-Remaining-Requests" = some s →
        pyInt s = some 0 →
        is_rate_limited (update_rate_limit st c h now).1 c = true) := by
  intro st c
  refine ⟨?_, ?_, ?_⟩
  · unfold is_rate_limited
    cases hl : lookupClient st c with
    | none => simp
    | some i =>
        cases hr : i.remaining with
        | none => simp [hr]
        | some n => simp [hr]
  · intro hl
    unfold is_rate_limited
    rw [hl]
  · intro h now s hok hs hps
    unfold is_rate_limited
    rw [update_ok_lookup st c h now hok]
    simp [appliedInfo, hs, hps]

/-- Witness for C6: a concrete two-entry state and a concrete update
reporting remaining 0. -/
theorem c6_witness :
    (is_rate_limited [("a", { remaining := some 0 })] "a" = true ↔
      ∃ i, lookupClient [("a", { remaining := some 0 })] "a" = some i ∧
        ∃ n, i.remaining = some n ∧ n ≤ 0) ∧
    (is_rate_limited ([] : RLState) "ghost" = false) ∧
    (is_rate_limited
      (update_rate_limit [] "a" [("X-Ratelimit-Remaining-Requests", "0")] 9).1 "a"
      = true) :=
  ⟨(c6_is_rate_limited_iff [("a", { remaining := some 0 })] "a").1,
   (c6_is_rate_limited_iff ([] : RLState) "ghost").2.1 rfl,
   (c6_is_rate_limited_iff [] "a").2.2 [("X-Ratelimit-Remaining-Requests", "0")] 9 "0"
     (by decide) (by decide) (by decide)⟩

/-- C7 counterexample: a response-less error carrying a `timeout`
attribute is classified NOT retryable by `_should_retry` (the first
clause requires `not hasattr(error, timeout)`, and the remaining
clauses all need a response), contradicting the claim that every error
with no response attached is retryable. -/
theorem c7_timeout_attr_not_retryable :
    should_retry (PyError.mk (β := Nat) none true "request timed out") = false := by
  decide

/-- C7 (amended): a response-less error without a `timeout` attribute
is retryable; a response-less error with a `timeout` attribute is not;
a 5xx response is retryable; a 429 response is not; any other status is
not. -/
theorem c7_should_retry_classification :
    ∀ {β : Type} (e : PyError β),
      (e.response = none → e.timeoutAttr = false → should_retry e = true) ∧
      (e.response = none → e.timeoutAttr = true → should_retry e = false) ∧
      (∀ r, e.response = some r → 500 ≤ r.status → r.status < 600 →
        should_retry e = true) ∧
      (∀ r, e.response = some r → r.status = 429 → should_retry e = false) ∧
      (∀ r, e.response = some r → ¬(500 ≤ r.status ∧ r.status < 600) →
        should_retry e = false) := by
  intro β e
  refine ⟨?_, ?_, ?_, ?_, ?_⟩
  · intro h1 h2
    simp [should_retry, h1, h2]
  · intro h1 h2
    simp [should_retry, h1, h2]
  · intro r hr h5 h6
    simp [should_retry, hr]
    omega
  · intro r hr h429
    simp [should_retry, hr, h429]
  · intro r hr hno
    simp [should_retry, hr]
    omega

/-- Witness for C7 (amended) at four concrete errors. -/
theorem c7_witness :
    should_retry (PyError.mk (β := Nat) none false "connection reset") = true ∧
    should_retry (PyError.mk (β := Nat) (some ⟨503, [], 0⟩) false "e") = true ∧
    should_retry (PyError.mk (β := Nat) (some ⟨429, [], 0⟩) false "e") = false ∧
    should_retry (PyError.mk (β := Nat) (some ⟨404, [], 0⟩) false "e") = false :=
  ⟨(c7_should_retry_classification _).1 rfl rfl,
   (c7_should_retry_classification _).2.2.1 _ rfl (by decide) (by decide),
   (c7_should_retry_classification _).2.2.2.1 _ rfl rfl,
   (c7_should_retry_classification _).2.2.2.2 _ rfl (by decide)⟩

/-- C5 (code bug, evaluated at the failing input): an update whose
retry-after header does not parse as an integer raises `ValueError`
(`ok = false`) and leaves the freshly created entry without a
`last_updated` stamp, although the spec requires malformed numeric
headers to be ignored and the call to always complete. -/
theorem c5_malformed_header_raises :
    (update_rate_limit [] "client" [("retry-after", "abc")] 5).2 = false ∧
    (lookupClient (update_rate_limit [] "client" [("retry-after", "abc")] 5).1
        "client").map LimitInfo.last_updated = some none := by
  decide

/-- An update whose present numeric headers all parse as integers never
fails and stamps `last_updated` (missing headers are simply skipped). -/
theorem update_parseable_stamps :
    ∀ (st : RLState) (c : String) (h : Headers) (now : Nat),
      headersOk h = true →
      (update_rate_limit st c h now).2 = true ∧
      ∃ i, lookupClient (update_rate_limit st c h now).1 c = some i ∧
        i.last_updated = some now := by
  intro st c h now hok
  rw [update_ok_eq st c h now hok]
  exact ⟨rfl, _, lookup_set_self st c _, rfl⟩


/-- Instance of `update_parseable_stamps` at a concrete mapping. -/
theorem update_parseable_stamps_inst :
    (update_rate_limit [] "c" [("retry-after", "7")] 3).2 = true ∧
    ∃ i, lookupClient (update_rate_limit [] "c" [("retry-after", "7")] 3).1 "c"
        = some i ∧ i.last_updated = some 3 :=
  update_parseable_stamps [] "c" [("retry-after", "7")] 3 (by decide)

/-- C1 (code bug): with retry_attempts = 1 and a server that answers
429 on every attempt, the executor issues 2 requests, not 1.  The 429
branch raises a fresh `RequestException` without attaching the
response, so the in-loop 429 guard sees `e.response = None` and
`_should_retry` classifies the error as a retryable network failure. -/
theorem c1_429_retried_at_failing_input :
    countRequests ((execute_with_resilience (β := Nat) ⟨false, 1, 0⟩ "c"
        (fun _ => .resp ⟨429, [], 0⟩) none 0 []).events) = 2 ∧
    (execute_with_resilience (β := Nat) ⟨false, 1, 0⟩ "c"
        (fun _ => .resp ⟨429, [], 0⟩) none 0 []).outcome
      = .raised ⟨none, false, "Rate limited (429) - not retrying"⟩ := by
  decide

/-- C8 counterexample: with a parseable limit header followed by a
malformed retry-after header, the call raises after overwriting
`limit`, so `last_updated` is NOT stamped — the claim that every call
stamps `last_updated` is false on the code. -/
theorem c8_malformed_header_skips_stamp :
    (lookupClient (update_rate_limit [] "c"
        [("X-Ratelimit-Limit-Requests", "5"), ("retry-after", "xyz")] 7).1
        "c").map LimitInfo.last_updated = some none ∧
    (lookupClient (update_rate_limit [] "c"
        [("X-Ratelimit-Limit-Requests", "5"), ("retry-after", "xyz")] 7).1
        "c").map LimitInfo.limit = some (some 5) := by
  decide

/-- C8 (amended): for every header mapping whose present numeric
headers parse as integers, each present recognized header overwrites
exactly its field for that client, absent headers keep the prior
values, and `last_updated` is stamped with the current time. -/
theorem c8_update_frame :
    ∀ (st : RLState) (c : String) (h : Headers) (now : Nat),
      headersOk h = true →
      ∃ i, lookupClient (update_rate_limit st c h now).1 c = some i ∧
        i.limit = (match hfind h "X-Ratelimit-Limit-Requests" with
          | some s => pyInt s
          | none => ((lookupClient st c).getD {}).limit) ∧
        i.remaining = (match hfind h "X-Ratelimit-Remaining-Requests" with
          | some s => pyInt s
          | none => ((lookupClient st c).getD {}).remaining) ∧
        i.reset_time = (match hfind h "X-Ratelimit-Reset-Requests" with
          | some s => some s
          | none => ((lookupClient st c).getD {}).reset_time) ∧
        i.retry_after = (match hfind h "retry-after" with
          | some s => pyInt s
          | none => ((lookupClient st c).getD {}).retry_after) ∧
        i.last_updated = some now := by
  intro st c h now hok
  exact ⟨_, update_ok_lookup st c h now hok, rfl, rfl, rfl, rfl, rfl⟩

/-- Witness for C8 (amended): one present header (retry-after)
overwritten, the others kept from the prior record. -/
theorem c8_witness :
    ∃ i, lookupClient (update_rate_limit
        [("c", { limit := some 1, remaining := some 3 })] "c"
        [("retry-after", "10")] 4).1 "c" = some i ∧
      i.limit = some 1 ∧ i.remaining = some 3 ∧ i.reset_time = none ∧
      i.retry_after = some 10 ∧ i.last_updated = some 4 := by
  obtain ⟨i, h1, h2, h3, h4, h5, h6⟩ :=
    c8_update_frame [("c", { limit := some 1, remaining := some 3 })] "c"
      [("retry-after", "10")] 4 (by decide)
  exact ⟨i, h1, h2.trans (by decide), h3.trans (by decide),
    h4.trans (by decide), h5.trans (by decide), h6⟩

/-- C9: over any sequence of tracker operations an existing client
entry is never removed; an update for one client leaves every other
client untouched; the two read operations do not change the state. -/
theorem c9_tracker_invariants :
    ∀ (st : RLState) (ops : List TrackerOp) (c : String),
      ((lookupClient st c).isSome = true →
        (lookupClient (runOps st ops) c).isSome = true) ∧
      (∀ (c' : String) (h : Headers) (now : Nat), c' ≠ c →
        lookupClient (update_rate_limit st c' h now).1 c = lookupClient st c) ∧
      (∀ c'', applyOp st (.isRateLimited c'') = st ∧
        applyOp st (.getRetryAfter c'') = st) := by
  have hmono : ∀ (op : TrackerOp) (st : RLState) (c : String),
      (lookupClient st c).isSome = true →
      (lookupClient (applyOp st op) c).isSome = true := by
    intro op st c hs
    cases op with
    | update c' h now =>
        obtain ⟨i, hi⟩ := update_shape st c' h now
        simp only [applyOp]
        rw [hi]
        exact isSome_lookup_set st c c' i hs
    | isRateLimited c'' => exact hs
    | getRetryAfter c'' => exact hs
  intro st ops c
  refine ⟨?_, ?_, ?_⟩
  · induction ops generalizing st with
    | nil => exact fun hs => hs
    | cons op rest ih =>
        intro hs
        exact ih (applyOp st op) (hmono op st c hs)
  · intro c' h now hne
    obtain ⟨i, hi⟩ := update_shape st c' h now
    rw [hi, lookup_set_other st c' c i hne]
  · intro c''
    exact ⟨rfl, rfl⟩

/-- Witness for C9 at a concrete state and operation sequence. -/
theorem c9_witness :
    (lookupClient (runOps [("a", {})]
        [TrackerOp.update "b" [("retry-after", "2")] 1,
         TrackerOp.isRateLimited "a", TrackerOp.update "a" [] 5]) "a").isSome
      = true ∧
    lookupClient (update_rate_limit [("a", {})] "b" [] 0).1 "a"
      = lookupClient [("a", {})] "a" ∧
    applyOp [("a", {})] (.isRateLimited "x") = [("a", {})] :=
  ⟨(c9_tracker_invariants [("a", {})]
      [TrackerOp.update "b" [("retry-after", "2")] 1,
       TrackerOp.isRateLimited "a", TrackerOp.update "a" [] 5] "a").1 (by decide),
   (c9_tracker_invariants [("a", {})] [] "a").2.1 "b" [] 0 (by decide),
   ((c9_tracker_invariants [("a", {})] [] "a").2.2 "x").1⟩

/-- With fallback enabled and supplied, the attempt loop can only end
in a success, the supplied fallback value, an escaped `ValueError`, or
the unreachable post-loop marker — never in a raised
`RequestException`. -/
theorem loop_enabled_outcomes {β : Type} (cfg : ResilienceConfig) (cid : String)
    (outcomes : Nat → AttemptOutcome β) (fb : β) (now : Nat)
    (hen : cfg.fallback_enabled = true) :
    ∀ (r : Nat) (st : RLState) (attempt : Nat),
      (∃ v, (executeLoop cfg cid outcomes (some fb) now st attempt r).outcome
        = .success v) ∨
      (executeLoop cfg cid outcomes (some fb) now st attempt r).outcome
        = .fallback fb ∨
      (executeLoop cfg cid outcomes (some fb) now st attempt r).outcome
        = .valueError ∨
      (executeLoop cfg cid outcomes (some fb) now st attempt r).outcome
        = .noLast := by
  intro r
  induction r with
  | zero =>
      intro st attempt
      simp [executeLoop]
  | succ r ih =>
      intro st attempt
      simp only [executeLoop]
      rcases hstep : attemptStep cid (outcomes attempt) st now with ⟨st1, evs, res⟩
      cases res with
      | ok v => simp
      | valErr => simp
      | failed e =>
          dsimp only
          by_cases hc :
              (if guard429 e = true then false else should_retry e) = false ∨ r = 0
          · rw [if_pos hc]
            simp [hen]
          · rw [if_neg hc]
            simpa using ih st1 (attempt + 1)

/-- With fallback disabled, the attempt loop never returns a fallback
value. -/
theorem loop_disabled_no_fallback {β : Type} (cfg : ResilienceConfig)
    (cid : String) (outcomes : Nat → AttemptOutcome β) (fallback : Option β)
    (now : Nat) (hen : cfg.fallback_enabled = false) :
    ∀ (r : Nat) (st : RLState) (attempt : Nat) (v : β),
      (executeLoop cfg cid outcomes fallback now st attempt r).outcome
        ≠ .fallback v := by
  intro r
  induction r with
  | zero =>
      intro st attempt v
      simp [executeLoop]
  | succ r ih =>
      intro st attempt v
      simp only [executeLoop]
      rcases hstep : attemptStep cid (outcomes attempt) st now with ⟨st1, evs, res⟩
      cases res with
      | ok w => simp
      | valErr => simp
      | failed e =>
          dsimp only
          by_cases hc :
              (if guard429 e = true then false else should_retry e) = false ∨ r = 0
          · rw [if_pos hc]
            cases fallback with
            | none => simp
            | some fb' => simp [hen]
          · rw [if_neg hc]
            simpa using ih st1 (attempt + 1) v

/-- Runs with the same retry configuration take the same branches: if a
run raises, the run with fallback enabled and a supplied payload
returns that payload at the same point. -/
theorem loop_raised_fallback {β : Type} (cfg : ResilienceConfig) (cid : String)
    (outcomes : Nat → AttemptOutcome β) (fb1 : Option β) (fb : β) (now : Nat) :
    ∀ (r : Nat) (st : RLState) (attempt : Nat) (e : PyError β),
      (executeLoop cfg cid outcomes fb1 now st attempt r).outcome = .raised e →
      (executeLoop { cfg with fallback_enabled := true } cid outcomes (some fb)
          now st attempt r).outcome = .fallback fb := by
  intro r
  induction r with
  | zero =>
      intro st attempt e hr
      simp [executeLoop] at hr
  | succ r ih =>
      intro st attempt e hr
      simp only [executeLoop] at hr ⊢
      rcases hstep : attemptStep cid (outcomes attempt) st now with ⟨st1, evs, res⟩
      rw [hstep] at hr
      cases res with
      | ok w =>
          dsimp only at hr
          exact absurd hr (by simp)
      | valErr =>
          dsimp only at hr
          exact absurd hr (by simp)
      | failed e' =>
          dsimp only at hr ⊢
          by_cases hc :
              (if guard429 e' = true then false else should_retry e') = false
                ∨ r = 0
          · rw [if_pos hc]
            simp
          · rw [if_neg hc] at hr ⊢
            dsimp only at hr ⊢
            exact ih st1 (attempt + 1) e hr

/-- C3: with fallback enabled and a non-null payload supplied, no
failure path raises — any returned fallback is the supplied payload
verbatim; with fallback disabled, the executor never returns a
fallback value, and wherever it raises, the same run with fallback
enabled and supplied would have returned the payload instead. -/
theorem c3_fallback_semantics :
    ∀ {β : Type} (cfg : ResilienceConfig) (cid : String)
      (outcomes : Nat → AttemptOutcome β) (fallback : Option β) (now : Nat)
      (st : RLState),
      (∀ fb, cfg.fallback_enabled = true → fallback = some fb →
        (∀ e, (execute_with_resilience cfg cid outcomes fallback now st).outcome
          ≠ .raised e) ∧
        (∀ v, (execute_with_resilience cfg cid outcomes fallback now st).outcome
          = .fallback v → v = fb)) ∧
      (cfg.fallback_enabled = false →
        (∀ v, (execute_with_resilience cfg cid outcomes fallback now st).outcome
          ≠ .fallback v) ∧
        (∀ fb e,
          (execute_with_resilience cfg cid outcomes fallback now st).outcome
            = .raised e →
          (execute_with_resilience { cfg with fallback_enabled := true } cid
              outcomes (some fb) now st).outcome = .fallback fb)) := by
  intro β cfg cid outcomes fallback now st
  constructor
  · intro fb hen hfb
    subst hfb
    have hout := loop_enabled_outcomes cfg cid outcomes fb now hen
      (cfg.retry_attempts + 1) st 1
    constructor
    · intro e he
      rcases hout with ⟨v, hv⟩ | hv | hv | hv <;>
        · rw [show (execute_with_resilience cfg cid outcomes (some fb) now
              st).outcome
            = (executeLoop cfg cid outcomes (some fb) now st 1
                (cfg.retry_attempts + 1)).outcome from rfl] at he
          rw [hv] at he
          simp at he
    · intro v hv
      rw [show (execute_with_resilience cfg cid outcomes (some fb) now
            st).outcome
          = (executeLoop cfg cid outcomes (some fb) now st 1
              (cfg.retry_attempts + 1)).outcome from rfl] at hv
      rcases hout with ⟨w, hw⟩ | hw | hw | hw <;> rw [hw] at hv
      · exact absurd hv (by simp)
      · injection hv with h
        exact h.symm
      · exact absurd hv (by simp)
      · exact absurd hv (by simp)
  · intro hen
    constructor
    · intro v
      exact loop_disabled_no_fallback cfg cid outcomes fallback now hen
        (cfg.retry_attempts + 1) st 1 v
    · intro fb e hr
      exact loop_raised_fallback cfg cid outcomes fallback fb now
        (cfg.retry_attempts + 1) st 1 e hr

/-- Witness for C3 at a concrete 404-answering endpoint. -/
theorem c3_witness :
    ((execute_with_resilience (β := Nat) ⟨true, 0, 0⟩ "c"
        (fun _ => .resp ⟨404, [], 0⟩) (some 99) 0 []).outcome
      ≠ .raised ⟨none, false, "x"⟩) ∧
    ((execute_with_resilience (β := Nat) ⟨false, 0, 0⟩ "c"
        (fun _ => .resp ⟨404, [], 0⟩) none 0 []).outcome ≠ .fallback 7) ∧
    ((execute_with_resilience (β := Nat) ⟨true, 0, 0⟩ "c"
        (fun _ => .resp ⟨404, [], 0⟩) (some 5) 0 []).outcome = .fallback 5) :=
  ⟨((c3_fallback_semantics ⟨true, 0, 0⟩ "c" (fun _ => .resp ⟨404, [], 0⟩)
      (some 99) 0 []).1 99 rfl rfl).1 _,
   ((c3_fallback_semantics ⟨false, 0, 0⟩ "c" (fun _ => .resp ⟨404, [], 0⟩)
      none 0 []).2 rfl).1 7,
   ((c3_fallback_semantics ⟨false, 0, 0⟩ "c" (fun _ => .resp ⟨404, [], 0⟩)
      none 0 []).2 rfl).2 5 ⟨some ⟨404, [], 0⟩, false, "HTTPError"⟩ (by decide)⟩

/-! ## Counting requests -/

theorem countRequests_request (a : Nat) (evs : List Event) :
    countRequests (.request a :: evs) = countRequests evs + 1 := by
  simp [countRequests, List.filter_cons]

theorem countRequests_sleep (d : Int) (evs : List Event) :
    countRequests (.sleepMs d :: evs) = countRequests evs := by
  simp [countRequests, List.filter_cons]

theorem countRequests_append (l1 l2 : List Event) :
    countRequests (l1 ++ l2) = countRequests l1 + countRequests l2 := by
  simp [countRequests, List.filter_append]

theorem countRequests_preSleep (st : RLState) (cid : String) :
    countRequests (preSleep st cid) = 0 := by
  unfold preSleep
  repeat' split
  all_goals rfl

theorem update_ok_flag (st : RLState) (c : String) (h : Headers) (now : Nat)
    (hok : headersOk h = true) : (update_rate_limit st c h now).2 = true := by
  rw [update_ok_eq st c h now hok]

/-- On a 5xx response with parseable headers, the attempt updates the
tracker and raises `HTTPError` with the response attached. -/
theorem attemptStep_5xx {β : Type} (cid : String) (r : PyResponse β)
    (st : RLState) (now : Nat) (h5 : 500 ≤ r.status) (h6 : r.status < 600)
    (hok : headersOk r.headers = true) :
    attemptStep cid (.resp r) st now
      = ((update_rate_limit st cid r.headers now).1, [],
          .failed ⟨some r, false, "HTTPError"⟩) := by
  unfold attemptStep
  dsimp only
  rw [update_ok_flag st cid r.headers now hok]
  rw [if_neg (by simp)]
  rw [if_neg (show ¬(r.status = 429) by omega)]
  rw [if_pos ⟨by omega, h6⟩]

theorem guard429_5xx {β : Type} (rr : PyResponse β) (h5 : 500 ≤ rr.status) :
    guard429 (⟨some rr, false, "HTTPError"⟩ : PyError β) = false := by
  have h429 : rr.status ≠ 429 := by omega
  simp [guard429, h429]

theorem should_retry_5xx {β : Type} (rr : PyResponse β) (h5 : 500 ≤ rr.status)
    (h6 : rr.status < 600) :
    should_retry (⟨some rr, false, "HTTPError"⟩ : PyError β) = true := by
  simp [should_retry, h5, h6]

/-- The attempt loop on an endpoint that answers 5xx on every remaining
attempt: one request per remaining attempt, then the failure handling
on the last attempt's `HTTPError`. -/
theorem loop_5xx {β : Type} (cfg : ResilienceConfig) (cid : String)
    (outcomes : Nat → AttemptOutcome β) (fallback : Option β) (now : Nat) :
    ∀ (r attempt : Nat) (st : RLState),
      (∀ i, attempt ≤ i → i ≤ attempt + r → is5xxOk (outcomes i) = true) →
      countRequests
          (executeLoop cfg cid outcomes fallback now st attempt (r+1)).events
        = r + 1 ∧
      ∃ rr, outcomes (attempt + r) = .resp rr ∧
        (cfg.fallback_enabled = false →
          (executeLoop cfg cid outcomes fallback now st attempt (r+1)).outcome
            = .raised ⟨some rr, false, "HTTPError"⟩) ∧
        (∀ fb, fallback = some fb → cfg.fallback_enabled = true →
          (executeLoop cfg cid outcomes fallback now st attempt (r+1)).outcome
            = .fallback fb) := by
  intro r
  induction r with
  | zero =>
      intro attempt st hall
      have h := hall attempt le_rfl (by omega)
      rcases ho : outcomes attempt with rr | e
      case exn =>
        rw [ho] at h
        simp [is5xxOk] at h
      case resp =>
        rw [ho] at h
        simp only [is5xxOk, Bool.and_eq_true, decide_eq_true_eq] at h
        obtain ⟨⟨hok, h5⟩, h6⟩ := h
        rw [executeLoop]
        rw [ho, attemptStep_5xx cid rr st now h5 h6 hok]
        dsimp only
        rw [if_pos (Or.inr rfl)]
        refine ⟨?_, rr, by rw [Nat.add_zero, ho], ?_, ?_⟩
        · cases fallback with
          | none => rfl
          | some fb =>
              dsimp only
              by_cases hen : cfg.fallback_enabled = true
              · rw [if_pos hen]
                rfl
              · rw [if_neg hen]
                rfl
        · intro hdis
          cases fallback with
          | none => rfl
          | some fb =>
              dsimp only
              rw [if_neg (by rw [hdis]; simp)]
        · intro fb hfb hen
          subst hfb
          dsimp only
          rw [if_pos hen]
  | succ r ih =>
      intro attempt st hall
      have h := hall attempt le_rfl (by omega)
      rcases ho : outcomes attempt with rr | e
      case exn =>
        rw [ho] at h
        simp [is5xxOk] at h
      case resp =>
        rw [ho] at h
        simp only [is5xxOk, Bool.and_eq_true, decide_eq_true_eq] at h
        obtain ⟨⟨hok, h5⟩, h6⟩ := h
        rw [executeLoop]
        rw [ho, attemptStep_5xx cid rr st now h5 h6 hok]
        dsimp only
        rw [if_neg (by
          simp [guard429_5xx rr h5, should_retry_5xx rr h5 h6])]
        dsimp only
        obtain ⟨hcount, rr', hrr', hdis, hfbk⟩ :=
          ih (attempt + 1) ((update_rate_limit st cid rr.headers now).1)
            (fun i hi1 hi2 => hall i (by omega) (by omega))
        refine ⟨?_, rr', ?_, hdis, hfbk⟩
        · rw [countRequests_append, countRequests_sleep, hcount,
            show countRequests [Event.request attempt] = 1 from rfl]
          omega
        · rw [show attempt + (r + 1) = attempt + 1 + r from by omega]
          exact hrr'

/-- C2: when every attempt returns a 5xx response (with parseable
headers), the executor sends exactly `1 + retry_attempts` requests and
then raises the last `HTTPError` (fallback disabled) or returns the
supplied fallback payload (fallback enabled). -/
theorem c2_5xx_exhausts_attempts :
    ∀ {β : Type} (cfg : ResilienceConfig) (cid : String)
      (outcomes : Nat → AttemptOutcome β) (fallback : Option β) (now : Nat)
      (st : RLState),
      (∀ i, 1 ≤ i → i ≤ cfg.retry_attempts + 1 → is5xxOk (outcomes i) = true) →
      countRequests
          (execute_with_resilience cfg cid outcomes fallback now st).events
        = cfg.retry_attempts + 1 ∧
      ∃ rr, outcomes (cfg.retry_attempts + 1) = .resp rr ∧
        (cfg.fallback_enabled = false →
          (execute_with_resilience cfg cid outcomes fallback now st).outcome
            = .raised ⟨some rr, false, "HTTPError"⟩) ∧
        (∀ fb, fallback = some fb → cfg.fallback_enabled = true →
          (execute_with_resilience cfg cid outcomes fallback now st).outcome
            = .fallback fb) := by
  intro β cfg cid outcomes fallback now st hall
  obtain ⟨hcount, rr, hrr, hdis, hfbk⟩ :=
    loop_5xx cfg cid outcomes fallback now cfg.retry_attempts 1 st
      (fun i hi1 hi2 => hall i hi1 (by omega))
  have hev : (execute_with_resilience cfg cid outcomes fallback now st).events
      = preSleep st cid
        ++ (executeLoop cfg cid outcomes fallback now st 1
              (cfg.retry_attempts + 1)).events := rfl
  have hout : (execute_with_resilience cfg cid outcomes fallback now st).outcome
      = (executeLoop cfg cid outcomes fallback now st 1
          (cfg.retry_attempts + 1)).outcome := rfl
  rw [Nat.add_comm 1 cfg.retry_attempts] at hrr
  refine ⟨?_, rr, hrr, ?_, ?_⟩
  · rw [hev, countRequests_append, countRequests_preSleep, hcount]
    omega
  · intro hdis'
    rw [hout]
    exact hdis hdis'
  · intro fb hfb hen
    rw [hout]
    exact hfbk fb hfb hen

/-- Witness for C2: three attempts at a permanently 503 endpoint, then
the raised `HTTPError`. -/
theorem c2_witness :
    countRequests ((execute_with_resilience (β := Nat) ⟨false, 2, 100⟩ "c"
        (fun _ => .resp ⟨503, [], 0⟩) none 0 []).events) = 3 ∧
    (execute_with_resilience (β := Nat) ⟨false, 2, 100⟩ "c"
        (fun _ => .resp ⟨503, [], 0⟩) none 0 []).outcome
      = .raised ⟨some ⟨503, [], 0⟩, false, "HTTPError"⟩ := by
  obtain ⟨hc, rr, hrr, hraise, _⟩ :=
    c2_5xx_exhausts_attempts ⟨false, 2, 100⟩ "c"
      (fun _ => .resp ⟨503, [], 0⟩) none 0 []
      (fun _ _ _ =>
        (by decide : is5xxOk (AttemptOutcome.resp (β := Nat) ⟨503, [], 0⟩)
          = true))
  cases hrr
  exact ⟨hc, hraise rfl⟩

/-! ## Backoff timing -/

theorem waitB_request (p : Option Int) (n : Nat) (rest : List Event) (k : Nat) :
    waitB p (.request n :: rest) k = if n = k then p else waitB none rest k :=
  rfl

theorem waitB_sleep (p : Option Int) (d : Int) (rest : List Event) (k : Nat) :
    waitB p (.sleepMs d :: rest) k = waitB (some d) rest k := rfl

/-- Every run of the attempt loop issues its first request immediately:
the event trace starts with `request attempt`. -/
theorem loop_events_head {β : Type} (cfg : ResilienceConfig) (cid : String)
    (outcomes : Nat → AttemptOutcome β) (fb : Option β) (now : Nat)
    (st : RLState) (attempt r : Nat) :
    ∃ tail, (executeLoop cfg cid outcomes fb now st attempt (r+1)).events
      = .request attempt :: tail := by
  rw [executeLoop]
  rcases hstep : attemptStep cid (outcomes attempt) st now with ⟨st1, evs, res⟩
  cases res with
  | ok v => exact ⟨_, rfl⟩
  | valErr => exact ⟨_, rfl⟩
  | failed e =>
      dsimp only
      by_cases hc :
          (if guard429 e = true then false else should_retry e) = false ∨ r = 0
      · rw [if_pos hc]
        cases fb with
        | none => exact ⟨_, rfl⟩
        | some fbv =>
            dsimp only
            by_cases hen : cfg.fallback_enabled = true
            · rw [if_pos hen]
              exact ⟨_, rfl⟩
            · rw [if_neg hen]
              exact ⟨_, rfl⟩
      · rw [if_neg hc]
        exact ⟨_, rfl⟩

/-- An attempt outcome satisfying `isRetryFailure` makes the attempt
end in a caught failure with no sleep events, classified retryable and
not caught by the (dead) 429 guard. -/
theorem attemptStep_retryFailure {β : Type} (cid : String)
    (o : AttemptOutcome β) (st : RLState) (now : Nat)
    (h : isRetryFailure o = true) :
    ∃ st1 e, attemptStep cid o st now = (st1, [], .failed e) ∧
      guard429 e = false ∧ should_retry e = true := by
  cases o with
  | exn e =>
      simp only [isRetryFailure, Bool.and_eq_true, Bool.not_eq_true'] at h
      exact ⟨st, e, rfl, h.2, h.1⟩
  | resp rr =>
      simp only [isRetryFailure, Bool.and_eq_true, decide_eq_true_eq] at h
      obtain ⟨⟨hok, h5⟩, h6⟩ := h
      exact ⟨_, _, attemptStep_5xx cid rr st now h5 h6 hok,
        guard429_5xx rr h5, should_retry_5xx rr h5 h6⟩

/-- When every attempt before `k` fails retryably, the sleep
immediately preceding request `k` is the exponential backoff delay of
attempt `k - 1`. -/
theorem loop_backoff {β : Type} (cfg : ResilienceConfig) (cid : String)
    (outcomes : Nat → AttemptOutcome β) (fb : Option β) (now : Nat) (k : Nat) :
    ∀ (r attempt : Nat) (st : RLState),
      1 ≤ attempt → attempt < k → k ≤ attempt + r →
      (∀ i, attempt ≤ i → i < k → isRetryFailure (outcomes i) = true) →
      waitB none (executeLoop cfg cid outcomes fb now st attempt (r+1)).events k
        = some ((cfg.retry_delay * 2 ^ (k - 2) : Nat) : Int) := by
  intro r
  induction r with
  | zero =>
      intro attempt st h1 h2 h3 hall
      omega
  | succ r ih =>
      intro attempt st h1 h2 h3 hall
      obtain ⟨st1, e, hstep, hg, hs⟩ :=
        attemptStep_retryFailure cid (outcomes attempt) st now
          (hall attempt le_rfl h2)
      rw [executeLoop, hstep]
      dsimp only
      rw [if_neg (by simp [hg, hs])]
      dsimp only
      simp only [List.cons_append, List.nil_append]
      obtain ⟨tail, htail⟩ :=
        loop_events_head cfg cid outcomes fb now st1 (attempt + 1) r
      rw [htail, waitB_request, if_neg (by omega : ¬(attempt = k)), waitB_sleep,
        waitB_request]
      by_cases hk : attempt + 1 = k
      · rw [if_pos hk]
        rw [show attempt - 1 = k - 2 from by omega]
      · rw [if_neg hk]
        have hIH := ih (attempt + 1) st1 (by omega) (by omega) (by omega)
          (fun i hi1 hi2 => hall i (by omega) hi2)
        rw [htail, waitB_request, if_neg hk] at hIH
        exact hIH

/-- C4: if every attempt before attempt `k` (`2 ≤ k ≤
total_attempts`) fails with a retryable error, the sleep immediately
before request `k` is exactly `retry_delay * 2 ^ (k - 2)` milliseconds:
the base delay before attempt 2, doubled before each later attempt. -/
theorem c4_exponential_backoff :
    ∀ {β : Type} (cfg : ResilienceConfig) (cid : String)
      (outcomes : Nat → AttemptOutcome β) (fb : Option β) (now : Nat)
      (st : RLState) (k : Nat),
      2 ≤ k → k ≤ cfg.retry_attempts + 1 →
      (∀ i, 1 ≤ i → i < k → isRetryFailure (outcomes i) = true) →
      waitBeforeReq (execute_with_resilience cfg cid outcomes fb now st).events
          k
        = some ((cfg.retry_delay * 2 ^ (k - 2) : Nat) : Int) := by
  intro β cfg cid outcomes fb now st k h2 hk hall
  obtain ⟨r', hr'⟩ : ∃ r', cfg.retry_attempts = r' + 1 := by
    refine ⟨cfg.retry_attempts - 1, by omega⟩
  have hloop := loop_backoff cfg cid outcomes fb now k cfg.retry_attempts 1 st
    le_rfl (by omega) (by omega) (fun i hi1 hi2 => hall i hi1 hi2)
  have hev : (execute_with_resilience cfg cid outcomes fb now st).events
      = preSleep st cid
        ++ (executeLoop cfg cid outcomes fb now st 1
              (cfg.retry_attempts + 1)).events := rfl
  unfold waitBeforeReq
  rw [hev]
  obtain ⟨tail, htail⟩ :=
    loop_events_head cfg cid outcomes fb now st 1 cfg.retry_attempts
  rw [htail] at hloop ⊢
  rw [waitB_request, if_neg (by omega : ¬(1 = k))] at hloop
  unfold preSleep
  by_cases hrl : is_rate_limited st cid = true
  · rw [if_pos hrl]
    cases hga : get_retry_after st cid with
    | none =>
        dsimp only
        rw [List.nil_append, waitB_request, if_neg (by omega : ¬(1 = k))]
        exact hloop
    | some n =>
        dsimp only
        by_cases hn : n ≠ 0
        · rw [if_pos hn]
          rw [List.cons_append, List.nil_append, waitB_sleep, waitB_request,
            if_neg (by omega : ¬(1 = k))]
          exact hloop
        · rw [if_neg hn]
          rw [List.nil_append, waitB_request, if_neg (by omega : ¬(1 = k))]
          exact hloop
  · rw [if_neg hrl]
    rw [List.nil_append, waitB_request, if_neg (by omega : ¬(1 = k))]
    exact hloop

/-- Witness for C4: the spec scenario (retry 2, delay 100 ms, all
attempts 503) sleeps exactly 200 ms before attempt 3. -/
theorem c4_witness :
    waitBeforeReq ((execute_with_resilience (β := Nat) ⟨false, 2, 100⟩ "c"
        (fun _ => .resp ⟨503, [], 0⟩) none 0 []).events) 3 = some 200 := by
  have h := c4_exponential_backoff ⟨false, 2, 100⟩ "c"
    (fun _ => .resp ⟨503, [], 0⟩) none 0 [] 3 (by decide) (by decide)
    (fun _ _ _ =>
      (by decide : isRetryFailure (AttemptOutcome.resp (β := Nat) ⟨503, [], 0⟩)
        = true))
  exact h.trans (by decide)

/-- C2 counterexample: an endpoint that answers 503 on every attempt
but whose responses carry a malformed retry-after header makes the run
abort with an uncaught `ValueError` after a single request, although
the claim (with retry_attempts = 1) predicts 2 requests and a raised
last error. -/
theorem c2_malformed_headers_abort :
    countRequests ((execute_with_resilience (β := Nat) ⟨false, 1, 0⟩ "c"
        (fun _ => .resp ⟨503, [("retry-after", "x")], 0⟩) none 0 []).events)
      = 1 ∧
    (execute_with_resilience (β := Nat) ⟨false, 1, 0⟩ "c"
        (fun _ => .resp ⟨503, [("retry-after", "x")], 0⟩) none 0 []).outcome
      = .valueError := by
  decide

/-- C6 counterexample: an update whose headers report remaining = 0 but
whose limit header is malformed raises before `remaining` is stored, so
`is_rate_limited` stays false — the claim that it returns true
immediately after any update reporting remaining = 0 is false as
stated. -/
theorem c6_malformed_limit_blocks_remaining :
    is_rate_limited (update_rate_limit [] "c"
        [("X-Ratelimit-Limit-Requests", "x"),
         ("X-Ratelimit-Remaining-Requests", "0")] 0).1 "c" = false := by
  decide

end DymoApi
